import Mathlib

/-!
Shallow embedding of `src/src/she/she_alleg4.cpp` (the SHE Allegro4 backend):
the `Alleg4Surface`, `Alleg4EventQueue`, `Alleg4Display` and `Alleg4System`
classes together with the file-static globals (`display_flags`,
`original_width`, `original_height`) and the resize/display-switch callbacks.

The Allegro library itself is an external collaborator: its bitmap heap,
screen, and mode/input installation are modelled as an explicit
`BackendState` threaded through every operation.  Bitmaps live in a heap
`mem : Nat → Option Bitmap` addressed by ids (C++ `BITMAP*` pointers);
`none` models a freed or NULL pointer.
-/

namespace She

/-- DISPLAY_FLAG_FULL_REFRESH bit from the source. -/
def DISPLAY_FLAG_FULL_REFRESH : Nat := 1

/-- DISPLAY_FLAG_WINDOW_RESIZE bit from the source. -/
def DISPLAY_FLAG_WINDOW_RESIZE : Nat := 2

/-- An Allegro BITMAP: width, height and pixel contents. -/
structure Bitmap where
  w : Nat
  h : Nat
  pix : Nat → Nat → Nat

/-- State of the external Allegro backend: the physical screen dimensions
`screenW`/`screenH` (the C macros SCREEN_W/SCREEN_H), the window geometry a
pending resize event will install (`pendingW`/`pendingH`), the physical
screen pixels, the bitmap heap (`nextId` is the next fresh bitmap id), and
oracles telling whether `create_bitmap`, `install_mouse`, `install_keyboard`
and `set_gfx_mode` succeed, plus the `allegro_error` diagnostic string. -/
structure BackendState where
  screenW : Nat
  screenH : Nat
  pendingW : Nat
  pendingH : Nat
  screenPix : Nat → Nat → Nat
  nextId : Nat
  mem : Nat → Option Bitmap
  allocOk : Bool
  mouseOk : Bool
  keyboardOk : Bool
  gfxOk : Bool
  allegro_error : String

/-- Allegro `create_bitmap(width, height)`: returns a fresh bitmap id when
allocation succeeds, `none` (NULL) when it fails. -/
def create_bitmap (width height : Nat) (st : BackendState) :
    Option Nat × BackendState :=
  if st.allocOk then
    (some st.nextId,
     { st with
        nextId := st.nextId + 1,
        mem := fun j =>
          if j = st.nextId then some ⟨width, height, fun _ _ => 0⟩
          else st.mem j })
  else (none, st)

/-- Allegro `destroy_bitmap`: frees the bitmap (no-op on NULL). -/
def destroy_bitmap (bmp : Option Nat) (st : BackendState) : BackendState :=
  match bmp with
  | some i => { st with mem := fun j => if j = i then none else st.mem j }
  | none => st

/-- `Alleg4Surface::DestroyFlag`. -/
inductive DestroyFlag where
  | NoDestroy : DestroyFlag
  | AutoDestroy : DestroyFlag
deriving DecidableEq

/-- An `Alleg4Surface`: a bitmap pointer (`none` models NULL) and the
destroy flag fixed at construction. -/
structure Alleg4Surface where
  m_bmp : Option Nat
  m_destroy : DestroyFlag
deriving DecidableEq

/-- Constructor `Alleg4Surface(BITMAP* bmp, DestroyFlag destroy)`. -/
def Alleg4Surface.ofBitmap (bmp : Option Nat) (destroy : DestroyFlag) :
    Alleg4Surface :=
  ⟨bmp, destroy⟩

/-- Constructor `Alleg4Surface(int width, int height)`: allocates via
`create_bitmap` (unchecked: a NULL result is stored as-is) and always sets
`AutoDestroy`. -/
def Alleg4Surface.make (width height : Nat) (st : BackendState) :
    Alleg4Surface × BackendState :=
  let r := create_bitmap width height st
  (⟨r.1, DestroyFlag.AutoDestroy⟩, r.2)

/-- `Alleg4Surface::~Alleg4Surface` reached through `dispose()`: frees the
backing bitmap exactly when the flag is `AutoDestroy`. -/
def Alleg4Surface.dispose (s : Alleg4Surface) (st : BackendState) :
    BackendState :=
  match s.m_destroy with
  | DestroyFlag.AutoDestroy => destroy_bitmap s.m_bmp st
  | DestroyFlag.NoDestroy => st

/-- Dimensions of the bitmap backing a surface, when it is live. -/
def surfDims (s : Alleg4Surface) (st : BackendState) : Option (Nat × Nat) :=
  s.m_bmp.bind fun i => (st.mem i).map fun b => (b.w, b.h)

/-- Modelled from the spec: the backend blit primitive (glossary: a
rectangular pixel copy between two surfaces).  Copies the `width`×`height`
rectangle at (`srcx`,`srcy`) of `src` onto (`dstx`,`dsty`) of `dst`. -/
def blitPix (src dst : Bitmap) (srcx srcy dstx dsty width height : Nat) :
    Bitmap :=
  { dst with
      pix := fun x y =>
        if dstx ≤ x ∧ x < dstx + width ∧ dsty ≤ y ∧ y < dsty + height then
          src.pix (srcx + (x - dstx)) (srcy + (y - dsty))
        else dst.pix x y }

/-- `Alleg4Surface::blitTo`: delegates to the backend blit on the two
surfaces' bitmaps.  A NULL or dead bitmap is asserted in the source
(undefined behaviour); modelled as leaving the state unchanged. -/
def Alleg4Surface.blitTo (s dest : Alleg4Surface)
    (srcx srcy dstx dsty width height : Nat) (st : BackendState) :
    BackendState :=
  match s.m_bmp, dest.m_bmp with
  | some si, some di =>
    match st.mem si, st.mem di with
    | some sb, some db =>
      { st with
          mem := fun j =>
            if j = di then
              some (blitPix sb db srcx srcy dstx dsty width height)
            else st.mem j }
    | _, _ => st
  | _, _ => st

/-- Event kinds (spec §6: `None`, `DropFiles`). -/
inductive EventType where
  | None : EventType
  | DropFiles : EventType
deriving DecidableEq

/-- Modelled from the spec: the `Event` type is declared in `she.h`, which
is not under `src/`.  Spec §3: "a discriminated kind (None, DropFiles, …)
plus kind-specific payload (e.g. an ordered list of file paths)", with the
invariant that the None kind carries no payload — hence a discriminated
union. -/
inductive Event where
  | none : Event
  | dropFiles (files : List String) : Event
deriving DecidableEq

/-- The kind of an event. -/
def Event.type : Event → EventType
  | Event.none => EventType.None
  | Event.dropFiles _ => EventType.DropFiles

/-- The file-path payload of an event (empty for the None kind). -/
def Event.files : Event → List String
  | Event.none => []
  | Event.dropFiles fs => fs

/-- Modelled from the spec: `Event::setType` (declared in `she.h`, not under
`src/`) selects the discriminated kind; the None kind carries no payload. -/
def Event.setType (e : Event) (t : EventType) : Event :=
  match t with
  | EventType.None => Event.none
  | EventType.DropFiles => Event.dropFiles e.files

/-- `Alleg4EventQueue::getEvent(Event& event)`: if the vector is non-empty,
copy the head into `event` and erase it; otherwise set the caller-supplied
event's type to `Event::None`.  Returns the out-parameter and the remaining
queue. -/
def getEvent (q : List Event) (event : Event) : Event × List Event :=
  match q with
  | e :: rest => (e, rest)
  | [] => (event.setType EventType.None, [])

/-- `Alleg4EventQueue::queueEvent`: push_back. -/
def queueEvent (q : List Event) (event : Event) : List Event :=
  q ++ [event]

/-- Repeats `getEvent` `n` times, collecting the returned events. -/
def pollList : Nat → List Event → Event → List Event × List Event
  | 0, q, _ => ([], q)
  | Nat.succ k, q, ev =>
    let r := getEvent q ev
    let rest := pollList k r.2 ev
    (r.1 :: rest.1, rest.2)

/-- The file-static globals of the translation unit:
`display_flags`, `original_width`, `original_height`. -/
structure GlobalFlags where
  display_flags : Nat
  original_width : Nat
  original_height : Nat
deriving DecidableEq

/-- The RESIZE_DISPLAY_EVENT payload seen by `resize_callback`. -/
structure ResizeEvent where
  is_maximized : Bool
  old_w : Nat
  old_h : Nat
deriving DecidableEq

/-- `resize_callback`: records the pre-change dimensions when the change
came from a maximize transition, and sets the window-resize flag. -/
def resize_callback (ev : ResizeEvent) (g : GlobalFlags) : GlobalFlags :=
  let g1 :=
    if ev.is_maximized then
      { g with original_width := ev.old_w, original_height := ev.old_h }
    else g
  { g1 with display_flags := g1.display_flags ||| DISPLAY_FLAG_WINDOW_RESIZE }

/-- `display_switch_in_callback`: sets the full-refresh flag. -/
def display_switch_in_callback (g : GlobalFlags) : GlobalFlags :=
  { g with display_flags := g.display_flags ||| DISPLAY_FLAG_FULL_REFRESH }

/-- Modelled from the spec: the Allegro resize-patch `acknowledge_resize`
("re-query physical dimensions from the backend"): the pending window
geometry becomes the physical SCREEN_W/SCREEN_H. -/
def acknowledge_resize (st : BackendState) : BackendState :=
  { st with screenW := st.pendingW, screenH := st.pendingH }

/-- The members of `Alleg4Display`: the backbuffer surface pointer (NULL
before the first `setScale`) and the current scale. -/
structure DisplayState where
  m_surface : Option Alleg4Surface
  m_scale : Nat
deriving DecidableEq

/-- `Alleg4Display::setScale`: no-op when the scale is unchanged; otherwise
stores the new scale, allocates a fresh backbuffer of SCREEN_W/scale ×
SCREEN_H/scale, disposes the previous backbuffer and installs the new one. -/
def setScale (scale : Nat) (d : DisplayState) (st : BackendState) :
    DisplayState × BackendState :=
  if d.m_scale = scale then (d, st)
  else
    let r := Alleg4Surface.make (st.screenW / scale) (st.screenH / scale) st
    let st2 :=
      match d.m_surface with
      | some s => s.dispose r.2
      | none => r.2
    ({ m_surface := some r.1, m_scale := scale }, st2)

/-- Modelled from the spec: the backend stretch copy used when scale ≠ 1
("a stretch copy from backbuffer dimensions to physical dimensions"),
nearest-neighbour from `src` onto the `dstW`×`dstH` destination. -/
def stretchPix (src : Bitmap) (dstW dstH : Nat) (dst : Nat → Nat → Nat) :
    Nat → Nat → Nat :=
  fun x y =>
    if x < dstW ∧ y < dstH then src.pix (x * src.w / dstW) (y * src.h / dstH)
    else dst x y

/-- `Alleg4Display::flip`: if the window-resize flag is set, toggle it off,
acknowledge the resize (re-querying SCREEN_W/SCREEN_H), force a backbuffer
reallocation by zeroing `m_scale` and reapplying the old scale, and return
false; otherwise present the backbuffer to the screen (1:1 blit when
scale == 1, stretch blit otherwise) and return true. -/
def flip (d : DisplayState) (g : GlobalFlags) (st : BackendState) :
    Bool × DisplayState × GlobalFlags × BackendState :=
  if g.display_flags &&& DISPLAY_FLAG_WINDOW_RESIZE ≠ 0 then
    let g1 :=
      { g with
          display_flags := g.display_flags ^^^ DISPLAY_FLAG_WINDOW_RESIZE }
    let st1 := acknowledge_resize st
    let scale := d.m_scale
    let d1 := { d with m_scale := 0 }
    let r := setScale scale d1 st1
    (false, r.1, g1, r.2)
  else
    let st1 :=
      match d.m_surface with
      | some s =>
        match s.m_bmp with
        | some i =>
          match st.mem i with
          | some bmp =>
            if d.m_scale = 1 then
              { st with
                  screenPix :=
                    (blitPix bmp ⟨st.screenW, st.screenH, st.screenPix⟩
                      0 0 0 0 st.screenW st.screenH).pix }
            else
              { st with
                  screenPix := stretchPix bmp st.screenW st.screenH st.screenPix }
          | none => st
        | none => st
      | none => st
    (true, d, g, st1)

/-- `Alleg4Display::width` (SCREEN_W). -/
def displayWidth (st : BackendState) : Nat := st.screenW

/-- `Alleg4Display::height` (SCREEN_H). -/
def displayHeight (st : BackendState) : Nat := st.screenH

/-- `Alleg4Display::originalWidth`:
`original_width > 0 ? original_width : width()`. -/
def originalWidth (g : GlobalFlags) (st : BackendState) : Nat :=
  if 0 < g.original_width then g.original_width else displayWidth st

/-- `Alleg4Display::originalHeight`:
`original_height > 0 ? original_height : height()`. -/
def originalHeight (g : GlobalFlags) (st : BackendState) : Nat :=
  if 0 < g.original_height then g.original_height else displayHeight st

/-- Dimensions of the display's installed backbuffer, when live. -/
def backbufferDims (d : DisplayState) (st : BackendState) :
    Option (Nat × Nat) :=
  d.m_surface.bind fun s => surfDims s st

/-- `Alleg4Display::Alleg4Display(int width, int height, int scale)`:
installs mouse and keyboard, negotiates the graphics mode at the requested
resolution, and on success allocates the backbuffer through
`setScale(scale)` starting from `m_scale = 0`.  Each backend failure throws
`DisplayCreationException(allegro_error)`, modelled as `Except.error` with
the diagnostic string; there is no retry. -/
def Alleg4Display.create (width height scale : Nat) (st : BackendState) :
    Except String (DisplayState × BackendState) :=
  if st.mouseOk = false then Except.error st.allegro_error
  else if st.keyboardOk = false then Except.error st.allegro_error
  else if st.gfxOk = false then Except.error st.allegro_error
  else
    let st1 := { st with screenW := width, screenH := height }
    let r := setScale scale { m_surface := none, m_scale := 0 } st1
    Except.ok r

/-- `Alleg4System::createSurface`. -/
def createSurface (width height : Nat) (st : BackendState) :
    Alleg4Surface × BackendState :=
  Alleg4Surface.make width height st

/-- `Alleg4System::createSurfaceFromNativeHandle`: wraps the caller's
native bitmap with the `AutoDestroy` flag. -/
def createSurfaceFromNativeHandle (nativeHandle : Nat) : Alleg4Surface :=
  Alleg4Surface.ofBitmap (some nativeHandle) DestroyFlag.AutoDestroy

/-! ### Helper lemmas -/

/-- The window-resize bit of `display_flags`, read through `testBit`. -/
theorem and_resize_flag (f : Nat) :
    f &&& DISPLAY_FLAG_WINDOW_RESIZE = (f.testBit 1).toNat * 2 := by
  have h2 : DISPLAY_FLAG_WINDOW_RESIZE = 2 ^ 1 := rfl
  rw [h2, Nat.and_two_pow, pow_one]

/-- The resize bit is set iff the masked flags are nonzero. -/
theorem resize_flag_ne_iff (f : Nat) :
    f &&& DISPLAY_FLAG_WINDOW_RESIZE ≠ 0 ↔ f.testBit 1 = true := by
  rw [and_resize_flag]
  cases h : f.testBit 1 <;> simp [h]

/-- Toggling a set resize bit clears it. -/
theorem xor_resize_clears (f : Nat)
    (h : f &&& DISPLAY_FLAG_WINDOW_RESIZE ≠ 0) :
    (f ^^^ DISPLAY_FLAG_WINDOW_RESIZE) &&& DISPLAY_FLAG_WINDOW_RESIZE = 0 := by
  have hb : f.testBit 1 = true := (resize_flag_ne_iff f).1 h
  rw [and_resize_flag]
  have hx : (f ^^^ DISPLAY_FLAG_WINDOW_RESIZE).testBit 1 = false := by
    have h21 : (DISPLAY_FLAG_WINDOW_RESIZE).testBit 1 = true := by decide
    rw [Nat.testBit_xor, hb, h21]
    rfl
  rw [hx]
  rfl

/-- `setScale` in the reallocation branch (requested scale differs from the
current one): installs a fresh `AutoDestroy` surface over bitmap
`st.nextId` of dimensions SCREEN_W/n × SCREEN_H/n, stores the new scale and
leaves the screen and backend oracles untouched. -/
theorem setScale_realloc (d : DisplayState) (st : BackendState) (n : Nat)
    (hne : d.m_scale ≠ n) (halloc : st.allocOk = true)
    (hfresh : ∀ s i, d.m_surface = some s → s.m_bmp = some i →
      i ≠ st.nextId) :
    (setScale n d st).1.m_scale = n
    ∧ (setScale n d st).1.m_surface =
        some ⟨some st.nextId, DestroyFlag.AutoDestroy⟩
    ∧ (setScale n d st).2.mem st.nextId =
        some ⟨st.screenW / n, st.screenH / n, fun _ _ => 0⟩
    ∧ (setScale n d st).2.screenW = st.screenW
    ∧ (setScale n d st).2.screenH = st.screenH
    ∧ (setScale n d st).2.screenPix = st.screenPix
    ∧ (setScale n d st).2.allocOk = st.allocOk
    ∧ (setScale n d st).2.pendingW = st.pendingW
    ∧ (setScale n d st).2.pendingH = st.pendingH := by
  rcases d with ⟨msurf, mscale⟩
  simp only [setScale, Alleg4Surface.make, create_bitmap, halloc] at *
  rw [if_neg hne]
  cases msurf with
  | none => simp
  | some s =>
    rcases s with ⟨sbmp, sdestroy⟩
    cases sdestroy with
    | NoDestroy => simp [Alleg4Surface.dispose]
    | AutoDestroy =>
      cases sbmp with
      | none => simp [Alleg4Surface.dispose, destroy_bitmap]
      | some i =>
        have hi : i ≠ st.nextId := hfresh ⟨some i, DestroyFlag.AutoDestroy⟩ i rfl rfl
        simp [Alleg4Surface.dispose, destroy_bitmap, Ne.symm hi]

/-- `setScale` with the current scale is the identity. -/
theorem setScale_noop (d : DisplayState) (st : BackendState) (n : Nat)
    (h : d.m_scale = n) : setScale n d st = (d, st) := by
  simp [setScale, h]

/-! ### Claim theorems -/

/-- C2: for every scale n ≥ 1 and physical dimensions (W, H), after
`setScale(n)` the backbuffer surface has dimensions (⌊W/n⌋, ⌊H/n⌋), and a
second `setScale(n)` with the same n is a no-op: the display and backend
state are returned unchanged, so the same surface stays installed and no
bitmap is allocated. -/
theorem setScale_dims_and_second_call_noop (d : DisplayState)
    (st : BackendState) (n : Nat) (_hn : 1 ≤ n) (halloc : st.allocOk = true)
    (hfresh : ∀ s i, d.m_surface = some s → s.m_bmp = some i →
      i ≠ st.nextId)
    (h : d.m_scale ≠ n ∨
      backbufferDims d st = some (st.screenW / n, st.screenH / n)) :
    backbufferDims (setScale n d st).1 (setScale n d st).2 =
      some (st.screenW / n, st.screenH / n)
    ∧ setScale n (setScale n d st).1 (setScale n d st).2 = setScale n d st := by
  by_cases hsc : d.m_scale = n
  · have hnoop : setScale n d st = (d, st) := setScale_noop d st n hsc
    rcases h with h | h
    · exact absurd hsc h
    · refine ⟨?_, ?_⟩ <;> rw [hnoop]
      · exact h
      · exact setScale_noop d st n hsc
  · obtain ⟨h1, h2, h3, _, _, _, _, _, _⟩ := setScale_realloc d st n hsc halloc hfresh
    refine ⟨?_, ?_⟩
    · rw [backbufferDims, h2]
      simp [surfDims, h3]
    · exact setScale_noop (setScale n d st).1 (setScale n d st).2 n h1

/-- Concrete display for the C2 witness: scale 1, backbuffer bitmap 0. -/
def c2d : DisplayState :=
  ⟨some ⟨some 0, DestroyFlag.AutoDestroy⟩, 1⟩

/-- Concrete backend for the C2 witness: a 100×80 screen, bitmap 0 live,
next fresh id 1. -/
def c2st : BackendState where
  screenW := 100
  screenH := 80
  pendingW := 100
  pendingH := 80
  screenPix := fun _ _ => 0
  nextId := 1
  mem := fun j => if j = 0 then some ⟨100, 80, fun _ _ => 0⟩ else none
  allocOk := true
  mouseOk := true
  keyboardOk := true
  gfxOk := true
  allegro_error := ""

/-- Witness for C2 at scale 2 on a 100×80 screen. -/
theorem setScale_dims_and_second_call_noop_witness :
    backbufferDims (setScale 2 c2d c2st).1 (setScale 2 c2d c2st).2 =
      some (c2st.screenW / 2, c2st.screenH / 2)
    ∧ setScale 2 (setScale 2 c2d c2st).1 (setScale 2 c2d c2st).2 =
      setScale 2 c2d c2st :=
  setScale_dims_and_second_call_noop c2d c2st 2 (by decide) rfl
    (by
      intro s i hs hb
      simp only [c2d, Option.some.injEq] at hs
      subst hs
      simp only [Option.some.injEq] at hb
      subst hb
      decide)
    (Or.inl (by decide))

/-- C8: a surface wrapping an existing native bitmap with `NoDestroy`
(Borrowed) ownership leaves the backend heap untouched on dispose, while an
`AutoDestroy` (Owned) surface frees exactly its backing bitmap. -/
theorem dispose_ownership (st : BackendState) (i : Nat) :
    (Alleg4Surface.ofBitmap (some i) DestroyFlag.NoDestroy).dispose st = st
    ∧ ((Alleg4Surface.ofBitmap (some i) DestroyFlag.AutoDestroy).dispose
        st).mem i = none
    ∧ ∀ j, j ≠ i →
        ((Alleg4Surface.ofBitmap (some i) DestroyFlag.AutoDestroy).dispose
          st).mem j = st.mem j := by
  refine ⟨rfl, ?_, ?_⟩
  · simp [Alleg4Surface.dispose, Alleg4Surface.ofBitmap, destroy_bitmap]
  · intro j hj
    simp [Alleg4Surface.dispose, Alleg4Surface.ofBitmap, destroy_bitmap, hj]

/-- Witness for C8: dispose over bitmap 3 in the concrete C2 backend,
checking heap slot 5 is untouched. -/
theorem dispose_ownership_witness :
    (Alleg4Surface.ofBitmap (some 3) DestroyFlag.NoDestroy).dispose c2st =
      c2st
    ∧ ((Alleg4Surface.ofBitmap (some 3) DestroyFlag.AutoDestroy).dispose
        c2st).mem 3 = none
    ∧ ((Alleg4Surface.ofBitmap (some 3) DestroyFlag.AutoDestroy).dispose
        c2st).mem 5 = c2st.mem 5 :=
  ⟨(dispose_ownership c2st 3).1, (dispose_ownership c2st 3).2.1,
    (dispose_ownership c2st 3).2.2 5 (by decide)⟩

/-- C10: `createSurfaceFromNativeHandle` always tags the wrapper
`AutoDestroy`, so disposing it frees the caller-supplied native bitmap;
the handle is never wrapped as Borrowed (`NoDestroy`). -/
theorem createSurfaceFromNativeHandle_autoDestroy (nativeHandle : Nat)
    (st : BackendState) :
    (createSurfaceFromNativeHandle nativeHandle).m_destroy =
      DestroyFlag.AutoDestroy
    ∧ ((createSurfaceFromNativeHandle nativeHandle).dispose st).mem
        nativeHandle = none := by
  refine ⟨rfl, ?_⟩
  simp [createSurfaceFromNativeHandle, Alleg4Surface.ofBitmap,
    Alleg4Surface.dispose, destroy_bitmap]

/-- Pushing a list of events through `queueEvent` appends them in order. -/
theorem foldl_queueEvent (evs q : List Event) :
    List.foldl queueEvent q evs = q ++ evs := by
  induction evs generalizing q with
  | nil => simp
  | cons e rest ih => simp [queueEvent, ih]

/-- Draining exactly `q.length` events returns the queue in order. -/
theorem pollList_drain (q : List Event) (ev : Event) :
    pollList q.length q ev = (q, []) := by
  induction q with
  | nil => rfl
  | cons e rest ih => simp [pollList, getEvent, ih]

/-- C3: the event queue is strict FIFO and non-blocking: `getEvent` on an
empty queue returns a None-kind event, a push onto an empty queue followed
by a poll returns exactly the pushed event, and N pushes followed by N
polls return the events in push order. -/
theorem eventQueue_fifo :
    (∀ ev : Event, (getEvent [] ev).1.type = EventType.None)
    ∧ (∀ e ev : Event, (getEvent (queueEvent [] e) ev).1 = e)
    ∧ ∀ (evs : List Event) (ev : Event),
        (pollList evs.length (List.foldl queueEvent [] evs) ev).1 = evs := by
  refine ⟨fun ev => rfl, fun e ev => rfl, ?_⟩
  intro evs ev
  rw [foldl_queueEvent, List.nil_append, pollList_drain]

/-- C7: whenever `getEvent` delivers a None-kind event — in particular on
an empty queue — the delivered event carries an empty file-path list, no
matter what payload the caller-supplied event object held before. -/
theorem getEvent_none_no_payload (q : List Event) (ev : Event)
    (h : (getEvent q ev).1.type = EventType.None) :
    (getEvent q ev).1.files = [] := by
  cases q with
  | nil => rfl
  | cons e rest =>
    cases e with
    | none => rfl
    | dropFiles fs => simp [getEvent, Event.type] at h

/-- Witness for C7: an empty queue polled with a caller-supplied event
still holding a DropFiles payload. -/
theorem getEvent_none_no_payload_witness :
    (getEvent [] (Event.dropFiles ["a.png"])).1.files = [] :=
  getEvent_none_no_payload [] (Event.dropFiles ["a.png"]) rfl

/-- C5: display creation fails with the backend's diagnostic string
whenever the backend refuses to install the mouse or keyboard or to
negotiate the graphics mode; the error is returned at the first refusal,
with no internal retry. -/
theorem createDisplay_failure (width height scale : Nat) (st : BackendState)
    (hfail : st.mouseOk = false ∨ st.keyboardOk = false ∨ st.gfxOk = false) :
    Alleg4Display.create width height scale st =
      Except.error st.allegro_error := by
  rcases hfail with h | h | h <;>
    cases hm : st.mouseOk <;> cases hk : st.keyboardOk <;>
    simp_all [Alleg4Display.create]

/-- Concrete backend for the C5 witness: the graphics-mode negotiation is
refused with a diagnostic. -/
def c5st : BackendState :=
  { c2st with gfxOk := false, allegro_error := "resolution not supported" }

/-- Witness for C5: a refused graphics mode at 640×480. -/
theorem createDisplay_failure_witness :
    Alleg4Display.create 640 480 2 c5st = Except.error c5st.allegro_error :=
  createDisplay_failure 640 480 2 c5st (Or.inr (Or.inr rfl))

/-- The claim C4 as the spec words it, specialised to the embedding:
`createSurface` yields a surface backed by a freshly allocated live buffer
of exactly the requested size.  (The spec's alternative outcome — an
`AllocationError` reported to the caller — has no image in the embedding
because `Alleg4Surface(int,int)` and `Alleg4System::createSurface` contain
no failure path: `create_bitmap`'s result is stored unchecked.) -/
def createSurfaceSpec (width height : Nat) (st : BackendState) : Prop :=
  surfDims (createSurface width height st).1
    (createSurface width height st).2 = some (width, height)

/-- Concrete backend in which `create_bitmap` fails. -/
def c4stFail : BackendState := { c2st with allocOk := false }

/-- C4 counterexample: when the backend cannot allocate, `createSurface`
neither produces a buffer of the requested size nor reports any error —
it silently returns a surface wrapping a NULL bitmap. -/
theorem createSurface_allocFailure_counterexample :
    ¬ createSurfaceSpec 10 5 c4stFail := by
  simp [createSurfaceSpec, createSurface, Alleg4Surface.make, create_bitmap,
    c4stFail, c2st, surfDims]

/-- C4 (amended): `createSurface(width, height)` always returns an
`AutoDestroy` (Owned) wrapper and never reports an error.  When the
backend allocation succeeds the wrapper holds a freshly allocated bitmap
(id `st.nextId`) of exactly the requested size; when the backend cannot
allocate, the failure is absorbed: the wrapper silently holds a NULL
bitmap and the backend state is unchanged. -/
theorem createSurface_amended (width height : Nat) (st : BackendState) :
    (createSurface width height st).1.m_destroy = DestroyFlag.AutoDestroy
    ∧ (st.allocOk = true →
        (createSurface width height st).1.m_bmp = some st.nextId
        ∧ surfDims (createSurface width height st).1
            (createSurface width height st).2 = some (width, height)
        ∧ (createSurface width height st).2.nextId = st.nextId + 1)
    ∧ (st.allocOk = false →
        (createSurface width height st).1.m_bmp = none
        ∧ (createSurface width height st).2 = st) := by
  refine ⟨rfl, ?_, ?_⟩ <;> intro h <;>
    simp [createSurface, Alleg4Surface.make, create_bitmap, h, surfDims]

/-- Witness for C4 (amended): a successful 10×5 allocation and a failed
one. -/
theorem createSurface_amended_witness :
    surfDims (createSurface 10 5 c2st).1 (createSurface 10 5 c2st).2 =
      some (10, 5)
    ∧ (createSurface 10 5 c4stFail).1.m_bmp = none :=
  ⟨((createSurface_amended 10 5 c2st).2.1 rfl).2.1,
   ((createSurface_amended 10 5 c4stFail).2.2 rfl).1⟩

/-- `flip` with the window-resize flag clear takes the presentation branch
and reports success. -/
theorem flip_no_resize_true (d : DisplayState) (g : GlobalFlags)
    (st : BackendState)
    (h : g.display_flags &&& DISPLAY_FLAG_WINDOW_RESIZE = 0) :
    (flip d g st).1 = true := by
  simp only [flip]
  rw [if_neg (fun hc => hc h)]

/-- C1: with the resize flag set by a geometry-change notification, the
next `flip` clears the flag, re-queries the physical dimensions (the
pending geometry becomes SCREEN_W/SCREEN_H), reallocates the backbuffer to
the new physical dimensions divided by the unchanged scale n, and returns
false without touching the physical screen pixels; a subsequent `flip`
with no further notification returns true. -/
theorem flip_resize_recovery (d : DisplayState) (g : GlobalFlags)
    (st : BackendState) (n : Nat) (hn : 1 ≤ n) (hscale : d.m_scale = n)
    (hflag : g.display_flags &&& DISPLAY_FLAG_WINDOW_RESIZE ≠ 0)
    (halloc : st.allocOk = true)
    (hfresh : ∀ s i, d.m_surface = some s → s.m_bmp = some i →
      i ≠ st.nextId) :
    (flip d g st).1 = false
    ∧ (flip d g st).2.2.1.display_flags &&& DISPLAY_FLAG_WINDOW_RESIZE = 0
    ∧ (flip d g st).2.2.2.screenW = st.pendingW
    ∧ (flip d g st).2.2.2.screenH = st.pendingH
    ∧ (flip d g st).2.1.m_scale = n
    ∧ backbufferDims (flip d g st).2.1 (flip d g st).2.2.2 =
        some (st.pendingW / n, st.pendingH / n)
    ∧ (flip d g st).2.2.2.screenPix = st.screenPix
    ∧ (flip (flip d g st).2.1 (flip d g st).2.2.1 (flip d g st).2.2.2).1 =
        true := by
  have hne : ({ d with m_scale := 0 } : DisplayState).m_scale ≠ n := by
    simp only
    omega
  have halloc1 : (acknowledge_resize st).allocOk = true := halloc
  have hfresh1 : ∀ s i,
      ({ d with m_scale := 0 } : DisplayState).m_surface = some s →
      s.m_bmp = some i → i ≠ (acknowledge_resize st).nextId := by
    intro s i hs hb
    exact hfresh s i hs hb
  obtain ⟨h1, h2, h3, h4, h5, h6, _, _, _⟩ :=
    setScale_realloc { d with m_scale := 0 } (acknowledge_resize st) n hne
      halloc1 hfresh1
  have hflip : flip d g st =
      (false,
        (setScale n { d with m_scale := 0 } (acknowledge_resize st)).1,
        { g with
            display_flags :=
              g.display_flags ^^^ DISPLAY_FLAG_WINDOW_RESIZE },
        (setScale n { d with m_scale := 0 } (acknowledge_resize st)).2) := by
    simp only [flip]
    rw [if_pos hflag, hscale]
  rw [hflip]
  refine ⟨rfl, xor_resize_clears g.display_flags hflag, ?_, ?_, h1, ?_, h6,
    ?_⟩
  · exact h4
  · exact h5
  · rw [backbufferDims, h2]
    simp [surfDims, h3]
    exact ⟨rfl, rfl⟩
  · exact flip_no_resize_true _ _ _
      (xor_resize_clears g.display_flags hflag)

/-- Concrete display for the C1 witness: scale 2, backbuffer bitmap 0. -/
def c1d : DisplayState :=
  ⟨some ⟨some 0, DestroyFlag.AutoDestroy⟩, 2⟩

/-- Concrete globals for the C1 witness: the window-resize flag is set. -/
def c1g : GlobalFlags := ⟨2, 0, 0⟩

/-- Concrete backend for the C1 witness: the pending geometry a resize
notification reported is 200×150. -/
def c1st : BackendState := { c2st with pendingW := 200, pendingH := 150 }

/-- Witness for C1: the flip after a resize notification at scale 2. -/
theorem flip_resize_recovery_witness :
    (flip c1d c1g c1st).1 = false
    ∧ backbufferDims (flip c1d c1g c1st).2.1 (flip c1d c1g c1st).2.2.2 =
        some (c1st.pendingW / 2, c1st.pendingH / 2)
    ∧ (flip (flip c1d c1g c1st).2.1 (flip c1d c1g c1st).2.2.1
        (flip c1d c1g c1st).2.2.2).1 = true := by
  obtain ⟨h1, _, _, _, _, h6, _, h8⟩ :=
    flip_resize_recovery c1d c1g c1st 2 (by decide) rfl (by decide) rfl
      (by
        intro s i hs hb
        simp only [c1d, Option.some.injEq] at hs
        subst hs
        simp only [Option.some.injEq] at hb
        subst hb
        decide)
  exact ⟨h1, h6, h8⟩

/-- Concrete globals for the C6 counterexample: a maximize geometry change
from 100×80 has fired. -/
def c6g : GlobalFlags := resize_callback ⟨true, 100, 80⟩ ⟨0, 0, 0⟩

/-- Concrete display for the C6 counterexample. -/
def c6d : DisplayState :=
  ⟨some ⟨some 0, DestroyFlag.AutoDestroy⟩, 2⟩

/-- Concrete backend for the C6 counterexample: the maximize installed a
pending geometry of 200×150. -/
def c6st : BackendState := { c2st with pendingW := 200, pendingH := 150 }

/-- C6 counterexample: after the maximize geometry change (old size
100×80, new physical size 200×150) has been fully processed by `flip` —
the resize condition is clear, so no maximize/restore transition is
outstanding — `originalWidth` still returns the recorded 100 instead of
the current physical width 200: the file-static `original_width` is never
cleared, so the pre-resize dimensions are remembered forever, not only
while the transition is outstanding. -/
theorem originalDims_counterexample :
    (flip c6d c6g c6st).2.2.1.display_flags &&&
        DISPLAY_FLAG_WINDOW_RESIZE = 0
    ∧ (flip c6d c6g c6st).2.2.2.screenW = 200
    ∧ originalWidth (flip c6d c6g c6st).2.2.1 (flip c6d c6g c6st).2.2.2 =
        100
    ∧ originalWidth (flip c6d c6g c6st).2.2.1 (flip c6d c6g c6st).2.2.2 ≠
        (flip c6d c6g c6st).2.2.2.screenW := by
  refine ⟨rfl, rfl, rfl, by decide⟩

/-- C6 (amended): `originalWidth`/`originalHeight` return the dimensions
recorded at the most recent maximize transition whenever a positive value
has been recorded, and the current physical dimensions otherwise;
`resize_callback` records the pre-change dimensions exactly when the
change came from a maximize, and the recorded dimensions are never cleared
— `flip` leaves them unchanged even when it completes the resize
recovery. -/
theorem originalDims_amended (g : GlobalFlags) (st : BackendState)
    (ev : ResizeEvent) (d : DisplayState) :
    originalWidth g st =
      (if 0 < g.original_width then g.original_width else st.screenW)
    ∧ originalHeight g st =
      (if 0 < g.original_height then g.original_height else st.screenH)
    ∧ (resize_callback ev g).original_width =
      (if ev.is_maximized then ev.old_w else g.original_width)
    ∧ (resize_callback ev g).original_height =
      (if ev.is_maximized then ev.old_h else g.original_height)
    ∧ (flip d g st).2.2.1.original_width = g.original_width
    ∧ (flip d g st).2.2.1.original_height = g.original_height := by
  refine ⟨rfl, rfl, ?_, ?_, ?_, ?_⟩
  · cases hb : ev.is_maximized <;> simp [resize_callback, hb]
  · cases hb : ev.is_maximized <;> simp [resize_callback, hb]
  · by_cases hf : g.display_flags &&& DISPLAY_FLAG_WINDOW_RESIZE ≠ 0 <;>
      simp [flip, hf]
  · by_cases hf : g.display_flags &&& DISPLAY_FLAG_WINDOW_RESIZE ≠ 0 <;>
      simp [flip, hf]

/-- C9: for two surfaces backed by live bitmaps and a rectangle lying
within both bitmaps' bounds, `blitTo` makes the destination rectangle
pixel-for-pixel equal to the source rectangle, leaves every destination
pixel outside the rectangle unchanged, and touches no other bitmap. -/
theorem blitTo_rect_copy (s d : Alleg4Surface) (st : BackendState)
    (si di : Nat) (sb db : Bitmap)
    (hs : s.m_bmp = some si) (hd : d.m_bmp = some di)
    (hms : st.mem si = some sb) (hmd : st.mem di = some db)
    (srcx srcy dstx dsty width height : Nat)
    (_hsw : srcx + width ≤ sb.w) (_hsh : srcy + height ≤ sb.h)
    (_hdw : dstx + width ≤ db.w) (_hdh : dsty + height ≤ db.h) :
    (∀ x y, dstx ≤ x → x < dstx + width → dsty ≤ y → y < dsty + height →
      ((s.blitTo d srcx srcy dstx dsty width height st).mem di).map
          (fun b => b.pix x y) =
        some (sb.pix (srcx + (x - dstx)) (srcy + (y - dsty))))
    ∧ (∀ x y,
        x < dstx ∨ dstx + width ≤ x ∨ y < dsty ∨ dsty + height ≤ y →
      ((s.blitTo d srcx srcy dstx dsty width height st).mem di).map
          (fun b => b.pix x y) = some (db.pix x y))
    ∧ ∀ j, j ≠ di →
        (s.blitTo d srcx srcy dstx dsty width height st).mem j =
          st.mem j := by
  refine ⟨?_, ?_, ?_⟩
  · intro x y h1 h2 h3 h4
    simp only [Alleg4Surface.blitTo, hs, hd, hms, hmd]
    simp [blitPix, h1, h2, h3, h4]
  · intro x y hout
    simp only [Alleg4Surface.blitTo, hs, hd, hms, hmd]
    have hno : ¬(dstx ≤ x ∧ x < dstx + width ∧ dsty ≤ y ∧
        y < dsty + height) := by
      rcases hout with h | h | h | h <;> omega
    simp [blitPix, hno]
  · intro j hj
    simp only [Alleg4Surface.blitTo, hs, hd, hms, hmd]
    simp [hj]

/-- Source bitmap for the C9 witness. -/
def c9src : Bitmap := ⟨4, 4, fun x y => 100 + 10 * x + y⟩

/-- Destination bitmap for the C9 witness. -/
def c9dst : Bitmap := ⟨4, 4, fun _ _ => 7⟩

/-- Backend for the C9 witness: bitmaps 0 (source) and 1 (destination). -/
def c9st : BackendState :=
  { c2st with
      nextId := 2,
      mem := fun j =>
        if j = 0 then some c9src
        else if j = 1 then some c9dst else none }

/-- Source surface for the C9 witness. -/
def c9s : Alleg4Surface := ⟨some 0, DestroyFlag.NoDestroy⟩

/-- Destination surface for the C9 witness. -/
def c9d : Alleg4Surface := ⟨some 1, DestroyFlag.NoDestroy⟩

/-- Witness for C9: a 2×2 blit from (1,0) to (2,1), inspected at an
in-rectangle pixel, an outside pixel and the untouched source slot. -/
theorem blitTo_rect_copy_witness :
    ((c9s.blitTo c9d 1 0 2 1 2 2 c9st).mem 1).map (fun b => b.pix 2 1) =
      some (c9src.pix (1 + (2 - 2)) (0 + (1 - 1)))
    ∧ ((c9s.blitTo c9d 1 0 2 1 2 2 c9st).mem 1).map (fun b => b.pix 0 0) =
      some (c9dst.pix 0 0)
    ∧ (c9s.blitTo c9d 1 0 2 1 2 2 c9st).mem 0 = c9st.mem 0 := by
  obtain ⟨hin, hout, hoth⟩ :=
    blitTo_rect_copy c9s c9d c9st 0 1 c9src c9dst rfl rfl rfl rfl
      1 0 2 1 2 2 (by decide) (by decide) (by decide) (by decide)
  exact ⟨hin 2 1 (by decide) (by decide) (by decide) (by decide),
         hout 0 0 (Or.inl (by decide)),
         hoth 0 (by decide)⟩

end She
